import Mathlib

/-!
Verification of the psrecord process monitor (src/psrecord/main.py) through a
shallow embedding.  Pure fragments of the source become Lean functions; the
effectful parts (psutil queries, the sampling loop, file and plot output) are
embedded by passing the observations the OS would deliver as explicit data:
an exception raised by a psutil call is modelled as a `none` / `gone` value at
the place where the call occurs, and the control flow of the Python source is
reproduced over those observations.  Quantities that are Python floats are
modelled as rationals; the integer io counters as naturals.
-/

namespace Psrecord

/-- A psutil process handle.  psutil compares two Process objects by their
(pid, creation time) pair, which is the equality used by the membership test
of all_children, so a handle is that pair. -/
structure Handle where
  pid : Nat
  createTime : Nat
deriving DecidableEq, Repr

/-- Shallow embedding of all_children (main.py lines 35 to 47).  `enum` is the
outcome of pr.children(recursive=True): `none` models the call raising, in
which case the registry is returned unchanged; otherwise each enumerated child
not already present in the registry is appended, in enumeration order. -/
def all_children (enum : Option (List Handle)) (registry : List Handle) : List Handle :=
  match enum with
  | none => registry
  | some cs => cs.foldl (fun reg c => if c ∈ reg then reg else reg ++ [c]) registry

/-- The successive registry states over one monitoring run: monitor resets the
global children list to empty at its start (line 148), and each refresh of the
run applies all_children to the previous state. -/
def registryStates (enums : List (Option (List Handle))) : List (List Handle) :=
  enums.scanl (fun reg e => all_children e reg) []

/-- Result of memory_full_info for one process: rss, vms and swap, in bytes. -/
structure MemInfo where
  rss : ℚ
  vms : ℚ
  swap : ℚ
deriving DecidableEq, Repr

/-- Result of io_counters for one process. -/
structure IOCounters where
  readCount : Nat
  writeCount : Nat
  readBytes : Nat
  writeBytes : Nat
deriving DecidableEq, Repr

/-- Observations for one descendant's reads inside its oneshot block, one
field per psutil call of the per-child try block (lines 256 to 270), in source
order: cpu is the outcome of child.cpu_percent(), mem of
child.memory_full_info(), ioc of child.io_counters(); none means that call
raised psutil.NoSuchProcess or psutil.AccessDenied.  The except clause
surrounds the whole block, so a raise at a later call keeps the additions the
earlier calls already made. -/
structure ChildObs where
  cpu : Option ℚ
  mem : Option MemInfo
  ioc : Option IOCounters
deriving DecidableEq, Repr

/-- Whether every read the iteration performs on this child succeeds, so that
the body reaches its last line and n_proc is incremented: io_counters is only
reached (and only needs to succeed) when include_io is set. -/
def ChildObs.isFull (ioFlag : Bool) (c : ChildObs) : Bool :=
  c.cpu.isSome && c.mem.isSome && (!ioFlag || c.ioc.isSome)

/-- Bytes per megabyte: the 1024.0 ** 2 divisor of the source. -/
def mb : ℚ := 1024 ^ 2

/-- The per-iteration accumulator variables of monitor: current_cpu,
current_mem_real, current_mem_virtual, current_mem_swap, the four io counters
and n_proc (lines 234 to 270). -/
structure Sample where
  cpu : ℚ
  memReal : ℚ
  memVirtual : ℚ
  memSwap : ℚ
  readCount : Nat
  writeCount : Nat
  readBytes : Nat
  writeBytes : Nat
  nproc : Nat
deriving DecidableEq, Repr

/-- Accumulator state right after the root reads (lines 234 to 250): the root
values converted to MB, io counters kept only when include_io, n_proc = 1. -/
def rootSample (ioFlag : Bool) (cpu : ℚ) (mem : MemInfo) (ioc : IOCounters) : Sample :=
  { cpu := cpu
    memReal := mem.rss / mb
    memVirtual := mem.vms / mb
    memSwap := mem.swap / mb
    readCount := if ioFlag then ioc.readCount else 0
    writeCount := if ioFlag then ioc.writeCount else 0
    readBytes := if ioFlag then ioc.readBytes else 0
    writeBytes := if ioFlag then ioc.writeBytes else 0
    nproc := 1 }

/-- One pass of the per-child try body (lines 256 to 270), statement by
statement: current_cpu += child.cpu_percent(), then the three memory additions
from child.memory_full_info(), then (only when include_io) the four io
additions from child.io_counters(), then n_proc += 1.  A raise at any of the
three calls jumps to the except clause with everything added so far retained,
and the loop just continues: a child gone before its first read contributes
nothing, one gone at the memory read keeps its cpu contribution, one gone at
the io read keeps its cpu and memory contributions; n_proc is incremented only
when the whole body ran. -/
def addChild (ioFlag : Bool) (s : Sample) (c : ChildObs) : Sample :=
  match c.cpu with
  | none => s
  | some v =>
    let s1 : Sample := { s with cpu := s.cpu + v }
    match c.mem with
    | none => s1
    | some m =>
      let s2 : Sample :=
        { s1 with
          memReal := s1.memReal + m.rss / mb
          memVirtual := s1.memVirtual + m.vms / mb
          memSwap := s1.memSwap + m.swap / mb }
      if ioFlag then
        match c.ioc with
        | none => s2
        | some cio =>
          { s2 with
            readCount := s2.readCount + cio.readCount
            writeCount := s2.writeCount + cio.writeCount
            readBytes := s2.readBytes + cio.readBytes
            writeBytes := s2.writeBytes + cio.writeBytes
            nproc := s2.nproc + 1 }
      else
        { s2 with nproc := s2.nproc + 1 }

/-- The aggregation of one iteration (lines 250 to 270): when include_children
is false the children loop is skipped entirely and the accumulator stays the
root values; when true the per-child body is folded over the registry. -/
def aggregate (childrenFlag ioFlag : Bool) (root : Sample) (cs : List ChildObs) : Sample :=
  if childrenFlag then cs.foldl (addChild ioFlag) root else root

/-- The values of one csv row (line 301 to 308) in order: elapsed_time, nproc,
cpu, mem_real, mem_virtual, mem_swap, then the io columns when include_io, then
dir_size_mb when include_dir. -/
def csvFields (ioFlag dirFlag : Bool) (elapsed : ℚ) (s : Sample) (dirSize : ℚ) : List ℚ :=
  [elapsed, (s.nproc : ℚ), s.cpu, s.memReal, s.memVirtual, s.memSwap] ++
    (if ioFlag then [(s.readCount : ℚ), (s.writeCount : ℚ), (s.readBytes : ℚ), (s.writeBytes : ℚ)]
     else []) ++
    (if dirFlag then [dirSize] else [])

/-- Python max over a sequence: raises ValueError on an empty sequence, which
is exactly what max(log["cpu"]) at line 348 does when no sample was recorded. -/
def pymax (xs : List ℚ) : Except String ℚ :=
  match xs with
  | [] => Except.error "max arg is an empty sequence"
  | x :: rest => Except.ok (rest.foldl max x)

/-- The figure built by the plotting block (lines 340 to 359): the two series
against the shared time axis and the two y-axis upper limits max * 1.2. -/
structure PlotFigure where
  times : List ℚ
  cpu : List ℚ
  memReal : List ℚ
  cpuYlim : ℚ
  memYlim : ℚ
deriving DecidableEq, Repr

/-- The plot rendering of lines 340 to 359 over the accumulated series, in
source order: plot cpu, set its y limit from max(cpu), plot memory, set its
y limit from max(mem_real).  A ValueError from either max escapes. -/
def renderPlot (times cpu memReal : List ℚ) : Except String PlotFigure := do
  let cpuTop ← pymax cpu
  let memTop ← pymax memReal
  Except.ok
    { times := times
      cpu := cpu
      memReal := memReal
      cpuYlim := cpuTop * (12 / 10)
      memYlim := memTop * (12 / 10) }

/-- Whether a rendering attempt completed without raising. -/
def renderOk (r : Except String PlotFigure) : Bool :=
  match r with
  | Except.ok _ => true
  | Except.error _ => false

/-- The two terminal actions after the loop (lines 330 to 359). -/
inductive TermEvent where
  | closeLog
  | render
deriving DecidableEq, Repr

/-- Terminal action sequence: close the log file when monitor owns one (it is
not stdout), then, when a plot is configured, render exactly once. -/
def terminalEvents (ownsLogFile plotConfigured : Bool) : List TermEvent :=
  (if ownsLogFile then [TermEvent.closeLog] else []) ++
    (if plotConfigured then [TermEvent.render] else [])

/-- Observations available to the root detailed read of one iteration:
cpuMem is the outcome of cpu_percent and memory_full_info inside the try of
lines 234 to 238 (none means one of them raised), ioc the outcome of the
io_counters call of line 244 (none means it raised). -/
structure RootObs where
  cpuMem : Option (ℚ × MemInfo)
  ioc : Option IOCounters
deriving DecidableEq, Repr

/-- How one root detailed read ends. -/
inductive ReadResult where
  | sample (s : Sample)
  | stopped
  | fatal (msg : String)
deriving DecidableEq, Repr

/-- The root detailed read (lines 233 to 250): an exception in cpu_percent or
memory_full_info is caught and breaks the loop (stopped); when include_io is
set, io_counters runs outside any try block, so its exception is not caught
and propagates out of monitor (fatal); otherwise the accumulator is seeded
with the root values. -/
def rootRead (ioFlag : Bool) (o : RootObs) : ReadResult :=
  match o.cpuMem with
  | none => ReadResult.stopped
  | some cm =>
    if ioFlag then
      match o.ioc with
      | none => ReadResult.fatal "io_counters raised outside any try block"
      | some c => ReadResult.sample (rootSample true cm.1 cm.2 c)
    else
      ReadResult.sample (rootSample false cm.1 cm.2 { readCount := 0, writeCount := 0, readBytes := 0, writeBytes := 0 })

/-- The stream choice of lines 156 to 161: stdout when neither a log file nor
a plot was requested, the log file when one was given, and no log stream at
all when only a plot was requested. -/
def effectiveLogfile (logfile plot : Option String) : Option String :=
  match logfile, plot with
  | none, none => some "<stdout>"
  | none, some _ => none
  | some l, _ => some l

/-- The header block of lines 163 to 195: it runs only when a log stream is
active, and only then does an unknown log_format raise ValueError; with only a
plot configured the format is never inspected. -/
def headerSetup (logfile plot : Option String) (fmt : String) : Except String Unit :=
  match effectiveLogfile logfile plot with
  | none => Except.ok ()
  | some _ =>
    if fmt = "plain" then Except.ok ()
    else if fmt = "csv" then Except.ok ()
    else Except.error ("Unknown log format: " ++ fmt ++ ", should be either plain or csv")

/-- The observable steps at the tail of one loop iteration. -/
inductive LoopEvent where
  | logWrite
  | pause
  | plotAppend
deriving DecidableEq, Repr

/-- Order of the iteration tail in the source: the log write and flush
(lines 286 to 310), then the sleep when an interval is set (lines 312 to 313),
then the plot series append (lines 315 to 325). -/
def iterationTail (logActive hasInterval plotActive : Bool) : List LoopEvent :=
  (if logActive then [LoopEvent.logWrite] else []) ++
    (if hasInterval then [LoopEvent.pause] else []) ++
    (if plotActive then [LoopEvent.plotAppend] else [])

/-- psutil process status values the loop distinguishes. -/
inductive PStatus where
  | running
  | sleeping
  | zombie
  | dead
deriving DecidableEq, Repr

/-- The observations one loop iteration would gather: the elapsed time
computed at its top, the outcome of pr.status() (none means NoSuchProcess was
raised), the root detailed-read observations, and the per-descendant snapshot
outcomes. -/
structure IterObs where
  elapsed : ℚ
  status : Option PStatus
  root : RootObs
  childObs : List ChildObs
deriving DecidableEq, Repr

/-- Why the monitoring loop ended. -/
inductive StopReason where
  | processGone
  | processExited
  | durationExceeded
  | snapshotFailed
  | fatal (msg : String)
  | interrupted
deriving DecidableEq, Repr

/-- The duration test of line 230: false when no duration is configured,
otherwise elapsed strictly greater than the duration. -/
def overDuration (duration : Option ℚ) (elapsed : ℚ) : Bool :=
  match duration with
  | none => false
  | some d => decide (d < elapsed)

/-- The main event loop (lines 211 to 328) over a stream of per-iteration
observations, in source order: NoSuchProcess from pr.status() breaks, a
zombie or dead status breaks, exceeding the duration breaks, a caught root
read failure breaks, an uncaught one propagates; otherwise the iteration
aggregates root and descendants and emits (elapsed, sample).  The stream
running out models KeyboardInterrupt ending the run. -/
def runLoop (duration : Option ℚ) (childrenFlag ioFlag : Bool) :
    List IterObs → List (ℚ × Sample) × StopReason
  | [] => ([], StopReason.interrupted)
  | o :: rest =>
    match o.status with
    | none => ([], StopReason.processGone)
    | some st =>
      if st = PStatus.zombie ∨ st = PStatus.dead then
        ([], StopReason.processExited)
      else if overDuration duration o.elapsed then
        ([], StopReason.durationExceeded)
      else
        match rootRead ioFlag o.root with
        | ReadResult.stopped => ([], StopReason.snapshotFailed)
        | ReadResult.fatal m => ([], StopReason.fatal m)
        | ReadResult.sample s =>
          let res := runLoop duration childrenFlag ioFlag rest
          ((o.elapsed, aggregate childrenFlag ioFlag s o.childObs) :: res.1, res.2)

/-- A healthy iteration observation used by witnesses. -/
def obsHealthy (t : ℚ) : IterObs :=
  { elapsed := t
    status := some PStatus.running
    root :=
      { cpuMem := some (5, { rss := 1048576, vms := 2097152, swap := 0 })
        ioc := some { readCount := 1, writeCount := 2, readBytes := 3, writeBytes := 4 } }
    childObs := [] }

/-- A zero sample used by witnesses. -/
def sampleZero : Sample :=
  { cpu := 0, memReal := 0, memVirtual := 0, memSwap := 0,
    readCount := 0, writeCount := 0, readBytes := 0, writeBytes := 0, nproc := 1 }

/-- The observable steps of main around the monitor call. -/
inductive MainEvent where
  | runMonitor
  | kill
  | raiseError (msg : String)
deriving DecidableEq, Repr

/-- Lines 117 to 130 of main: monitor is called, and only after it returns is
the spawned subprocess killed; there is no try or finally around the call, so
when monitor raises, the exception propagates and the kill never runs. -/
def mainEvents (spawned : Bool) (monitorOutcome : Except String Unit) : List MainEvent :=
  MainEvent.runMonitor ::
    (match monitorOutcome with
     | Except.ok _ => if spawned then [MainEvent.kill] else []
     | Except.error m => [MainEvent.raiseError m])

/-- The whitespace characters Python int() strips around a numeric literal:
CPython first maps every non-ASCII Unicode whitespace character to a space,
then the ASCII-level parser skips tab through carriage return and space, so
the accepted set is 09 to 0D and 20 plus the non-ASCII Unicode whitespace —
next line, no-break space, ogham space mark, the en-quad to hair-space run,
line and paragraph separators, narrow no-break space, medium mathematical
space and ideographic space.  The ASCII separator controls 1C to 1F are
Unicode whitespace but are not stripped by int(). -/
def isPySpace (c : Char) : Bool :=
  let n := c.toNat
  (decide (0x09 ≤ n) && decide (n ≤ 0x0D)) || decide (n = 0x20) ||
    decide (n = 0x85) || decide (n = 0xA0) ||
    decide (n = 0x1680) || (decide (0x2000 ≤ n) && decide (n ≤ 0x200A)) ||
    decide (n = 0x2028) || decide (n = 0x2029) || decide (n = 0x202F) ||
    decide (n = 0x205F) || decide (n = 0x3000)

/-- First code points of the runs of ten consecutive Unicode decimal digits
(general category Nd, Unicode 14.0 as used by CPython 3.11): Python int()
accepts a digit from any of these runs, with value code point minus run
start. -/
def ndRangeStarts : List Nat :=
  [0x30, 0x660, 0x6F0, 0x7C0, 0x966, 0x9E6, 0xA66, 0xAE6, 0xB66, 0xBE6,
   0xC66, 0xCE6, 0xD66, 0xDE6, 0xE50, 0xED0, 0xF20, 0x1040, 0x1090, 0x17E0,
   0x1810, 0x1946, 0x19D0, 0x1A80, 0x1A90, 0x1B50, 0x1BB0, 0x1C40, 0x1C50,
   0xA620, 0xA8D0, 0xA900, 0xA9D0, 0xA9F0, 0xAA50, 0xABF0, 0xFF10,
   0x104A0, 0x10D30, 0x11066, 0x110F0, 0x11136, 0x111D0, 0x112F0, 0x11450,
   0x114D0, 0x11650, 0x116C0, 0x11730, 0x118E0, 0x11950, 0x11C50, 0x11D50,
   0x11DA0, 0x16A60, 0x16AC0, 0x16B50, 0x1D7CE, 0x1D7D8, 0x1D7E2,
   0x1D7EC, 0x1D7F6, 0x1E140, 0x1E2F0, 0x1E950, 0x1FBF0]

/-- Decimal digit value of a character under Python int(): any Unicode
decimal digit (category Nd) counts, for example the Arabic-Indic and
fullwidth digits, not just the ASCII ones. -/
def digitVal (c : Char) : Option Nat :=
  (ndRangeStarts.find? (fun s => decide (s ≤ c.toNat) && decide (c.toNat < s + 10))).map
    (fun s => c.toNat - s)

/-- Remaining digits of a Python integer literal: single underscores are
allowed between digits, nowhere else. -/
def parseDigitsRest : List Char → Nat → Option Nat
  | [], acc => some acc
  | '_' :: c :: rest, acc =>
    match digitVal c with
    | some v => parseDigitsRest rest (acc * 10 + v)
    | none => none
  | c :: rest, acc =>
    match digitVal c with
    | some v => parseDigitsRest rest (acc * 10 + v)
    | none => none

/-- Digit part of a Python integer literal: must start with a digit. -/
def parseDigits : List Char → Option Nat
  | [] => none
  | c :: rest =>
    match digitVal c with
    | some v => parseDigitsRest rest v
    | none => none

/-- Python int(str) applied to a command-line argument: surrounding whitespace
stripped, an optional sign, then a nonempty digit sequence; anything else
raises ValueError, modelled as none. -/
def pyIntParse (s : String) : Option Int :=
  let cs := ((s.toList.dropWhile isPySpace).reverse.dropWhile isPySpace).reverse
  match cs with
  | '+' :: rest => (parseDigits rest).map (fun n => (n : Int))
  | '-' :: rest => (parseDigits rest).map (fun n => -(n : Int))
  | rest => (parseDigits rest).map (fun n => (n : Int))

/-- What the program monitors. -/
inductive Target where
  | attach (pid : Int)
  | spawn (command : String) (newPid : Nat)
deriving DecidableEq, Repr

/-- Lines 104 to 115 of main: int(args.process_id_or_command) succeeding means
attach to that pid; the ValueError branch spawns the string as a shell command
and monitors the new pid. -/
def resolveTarget (arg : String) (spawnedPid : Nat) : Target :=
  match pyIntParse arg with
  | some n => Target.attach n
  | none => Target.spawn arg spawnedPid

/-- The pid handed to monitor for a resolved target. -/
def monitoredPid (t : Target) : Int :=
  match t with
  | Target.attach n => n
  | Target.spawn _ p => (p : Int)

end Psrecord

namespace Psrecord

theorem head?_scanl {α β : Type} (f : β → α → β) (b : β) (l : List α) :
    (l.scanl f b).head? = some b := by
  cases l <;> simp [List.scanl_nil, List.scanl_cons]

theorem chain'_scanl {α β : Type} (R : β → β → Prop) (f : β → α → β)
    (h : ∀ b a, R b (f b a)) (l : List α) (init : β) :
    List.Chain' R (l.scanl f init) := by
  induction l generalizing init with
  | nil => simp [List.scanl_nil]
  | cons a l ih =>
    rw [List.scanl_cons]
    simp only [List.singleton_append]
    refine List.chain'_cons'.2 ⟨?_, ih (f init a)⟩
    intro y hy
    rw [head?_scanl] at hy
    cases hy
    exact h init a

theorem all_children_extends (enum : Option (List Handle)) (reg : List Handle) :
    List.IsPrefix reg (all_children enum reg) := by
  cases enum with
  | none => exact List.prefix_refl reg
  | some cs =>
    show List.IsPrefix reg (cs.foldl (fun r c => if c ∈ r then r else r ++ [c]) reg)
    induction cs generalizing reg with
    | nil => exact List.prefix_refl reg
    | cons c cs ih =>
      simp only [List.foldl_cons]
      refine List.IsPrefix.trans ?_ (ih _)
      by_cases h : c ∈ reg
      · simp [h]
      · simp only [h, if_false]
        exact List.prefix_append reg [c]

theorem all_children_nodup (enum : Option (List Handle)) (reg : List Handle)
    (h : reg.Nodup) : (all_children enum reg).Nodup := by
  cases enum with
  | none => exact h
  | some cs =>
    show ((cs.foldl (fun r c => if c ∈ r then r else r ++ [c]) reg)).Nodup
    induction cs generalizing reg with
    | nil => exact h
    | cons c cs ih =>
      simp only [List.foldl_cons]
      by_cases hc : c ∈ reg
      · simp only [hc, if_true]
        exact ih reg h
      · simp only [hc, if_false]
        refine ih (reg ++ [c]) ?_
        rw [List.nodup_append]
        exact ⟨h, List.nodup_singleton c, by simpa using hc⟩

/-- C3: within one monitoring run the descendant registry is append-only and
deduplicated: the run starts with the registry reset to empty, every refresh
extends the previous registry (so a handle once added is never removed and the
size never decreases), a refresh whose enumeration fails returns the registry
unchanged, and a refresh of a duplicate-free registry stays duplicate-free. -/
theorem registry_append_only_dedup_reset :
    ∀ (enums : List (Option (List Handle))) (e : Option (List Handle)) (reg : List Handle),
      (registryStates enums).head? = some [] ∧
      List.Chain' (fun a b => List.IsPrefix a b) (registryStates enums) ∧
      List.IsPrefix reg (all_children e reg) ∧
      reg.length ≤ (all_children e reg).length ∧
      all_children none reg = reg ∧
      (reg.Nodup → (all_children e reg).Nodup) := by
  intro enums e reg
  refine ⟨head?_scanl _ _ _, ?_, all_children_extends e reg,
    (all_children_extends e reg).length_le, rfl, all_children_nodup e reg⟩
  exact chain'_scanl _ _ (fun b a => all_children_extends a b) enums []

/-- Witness for C3 at concrete inputs: a refresh that enumerates a duplicate
and an already-registered handle keeps the registry duplicate-free. -/
theorem registry_append_only_dedup_reset_witness :
    (all_children (some [⟨2, 5⟩, ⟨2, 5⟩, ⟨1, 1⟩]) [⟨1, 1⟩]).Nodup :=
  (registry_append_only_dedup_reset [] (some [⟨2, 5⟩, ⟨2, 5⟩, ⟨1, 1⟩]) [⟨1, 1⟩]).2.2.2.2.2
    (by decide)

theorem addChild_cpu_none (ioFlag : Bool) (s : Sample) (c : ChildObs)
    (h : c.cpu = none) : addChild ioFlag s c = s := by
  simp [addChild, h]

theorem addChild_nproc (ioFlag : Bool) (s : Sample) (c : ChildObs) :
    (addChild ioFlag s c).nproc
      = s.nproc + (if ChildObs.isFull ioFlag c then 1 else 0) := by
  obtain ⟨cc, cm, ci⟩ := c
  cases cc <;> cases cm <;> cases ci <;> cases ioFlag <;>
    simp [addChild, ChildObs.isFull]

theorem foldl_addChild_filter (ioFlag : Bool) (cs : List ChildObs) (s : Sample) :
    cs.foldl (addChild ioFlag) s
      = (cs.filter (fun c => c.cpu.isSome)).foldl (addChild ioFlag) s := by
  induction cs generalizing s with
  | nil => rfl
  | cons c cs ih =>
    cases hc : c.cpu with
    | none =>
      rw [List.foldl_cons, addChild_cpu_none ioFlag s c hc, List.filter_cons]
      simp [hc, ih]
    | some v =>
      rw [List.foldl_cons, List.filter_cons]
      simp [hc, List.foldl_cons, ih]

theorem foldl_addChild_nproc (ioFlag : Bool) (cs : List ChildObs) (s : Sample) :
    (cs.foldl (addChild ioFlag) s).nproc
      = s.nproc + (cs.filter (ChildObs.isFull ioFlag)).length := by
  induction cs generalizing s with
  | nil => simp
  | cons c cs ih =>
    rw [List.foldl_cons, ih, addChild_nproc, List.filter_cons]
    cases h : ChildObs.isFull ioFlag c
    · simp [h]
    · simp [h]
      omega

/-- C1, counterexample: a descendant whose cpu_percent succeeded but whose
memory_full_info raised — the process vanished between the two reads, or its
smaps are permission-denied — is a ProcessGone descendant (it is not counted:
n_proc stays 1), yet its cpu contribution of 7 stays in the total, which is 0
without it: the claim that such a descendant leaves the totals unchanged is
false of the program. -/
theorem mid_read_gone_child_changes_totals :
    (aggregate true false sampleZero
        [{ cpu := some 7, mem := none, ioc := none }]).cpu = 7 ∧
      (aggregate true false sampleZero ([] : List ChildObs)).cpu = 0 ∧
      (aggregate true false sampleZero
        [{ cpu := some 7, mem := none, ioc := none }]).nproc = 1 := by
  refine ⟨?_, rfl, rfl⟩
  show (0 : ℚ) + 7 = 7
  exact zero_add 7

/-- C1 amended: a descendant already gone at its first read (cpu_percent
raises) contributes nothing, and dropping all such descendants anywhere in the
sequence leaves the aggregate unchanged, however many there are, so
aggregation of the remaining descendants always proceeds; process_count is
incremented exactly for the descendants whose every read succeeded; but a
descendant vanishing in mid-read retains the contributions already
accumulated: one gone at the memory read keeps exactly its cpu contribution
while not being counted. -/
theorem gone_descendants_partial_contribution :
    ∀ (ioFlag : Bool) (root : Sample) (cs : List ChildObs),
      aggregate true ioFlag root cs
        = aggregate true ioFlag root (cs.filter (fun c => c.cpu.isSome)) ∧
      (aggregate true ioFlag root cs).nproc
        = root.nproc + (cs.filter (ChildObs.isFull ioFlag)).length ∧
      (∀ pre post : List ChildObs, ∀ cm ci,
        aggregate true ioFlag root (pre ++ { cpu := none, mem := cm, ioc := ci } :: post)
          = aggregate true ioFlag root (pre ++ post)) ∧
      (∀ v : ℚ, addChild ioFlag root { cpu := some v, mem := none, ioc := none }
          = { root with cpu := root.cpu + v }) := by
  intro ioFlag root cs
  refine ⟨?_, ?_, ?_, ?_⟩
  · simp only [aggregate, if_true]
    rw [foldl_addChild_filter]
  · simpa [aggregate] using foldl_addChild_nproc ioFlag cs root
  · intro pre post cm ci
    simp only [aggregate, if_true, List.foldl_append, List.foldl_cons]
    rw [addChild_cpu_none ioFlag _ _ rfl]
  · intro v
    rfl

/-- C2: without include_children the aggregate is exactly the root snapshot,
its process count is 1, and the nproc field of the csv row (index 1) is 1. -/
theorem no_children_aggregate_equals_root :
    ∀ (ioFlag dirFlag : Bool) (cpu : ℚ) (mem : MemInfo) (ioc : IOCounters)
      (cs : List ChildObs) (elapsed dirSize : ℚ),
      aggregate false ioFlag (rootSample ioFlag cpu mem ioc) cs
        = rootSample ioFlag cpu mem ioc ∧
      (aggregate false ioFlag (rootSample ioFlag cpu mem ioc) cs).nproc = 1 ∧
      (csvFields ioFlag dirFlag elapsed
          (aggregate false ioFlag (rootSample ioFlag cpu mem ioc) cs) dirSize).get? 1
        = some 1 := by
  intro ioFlag dirFlag cpu mem ioc cs elapsed dirSize
  refine ⟨rfl, rfl, ?_⟩
  simp [csvFields, aggregate, rootSample]

/-- C4, counterexample: rendering the plot with zero accumulated samples does
crash — max over the empty cpu series raises ValueError, refuting the claim
that rendering on an empty series cannot crash. -/
theorem render_empty_series_errors :
    renderPlot [] [] [] = Except.error "max arg is an empty sequence" := rfl

/-- C4 amended: on any stop with a plot sink configured the terminal action
renders exactly once from the accumulated series (and never renders without a
plot sink); rendering succeeds whenever at least one sample was accumulated,
but with zero samples it raises an error instead of skipping or drawing an
empty chart. -/
theorem plot_rendered_once_crashes_on_empty :
    ∀ (ownsLog : Bool) (ts cs ms : List ℚ) (c m : ℚ),
      (terminalEvents ownsLog true).count TermEvent.render = 1 ∧
      (terminalEvents ownsLog false).count TermEvent.render = 0 ∧
      renderOk (renderPlot ts (c :: cs) (m :: ms)) = true ∧
      renderOk (renderPlot ts [] ms) = false := by
  intro ownsLog ts cs ms c m
  refine ⟨?_, ?_, rfl, rfl⟩ <;> cases ownsLog <;> rfl

/-- C5, counterexample: with include_io set, an io_counters failure on the
root is not caught and leaves the monitoring loop as a fatal error rather
than being mapped to the caught ProcessGone handling. -/
theorem root_ioc_failure_is_fatal :
    rootRead true { cpuMem := some (0, { rss := 0, vms := 0, swap := 0 }), ioc := none }
        = ReadResult.fatal "io_counters raised outside any try block" ∧
      rootRead true { cpuMem := some (0, { rss := 0, vms := 0, swap := 0 }), ioc := none }
        ≠ ReadResult.stopped := by
  exact ⟨rfl, by decide⟩

/-- C5 amended: failures of the root cpu and memory reads are caught and end
the loop cleanly, failures of a descendant read are absorbed at that
descendant and never abort the loop (a descendant gone before its first read
contributes nothing, while a mid-read raise keeps the partial additions, see
C1), but a failure of the root io_counters read with include_io set is the
one uncaught case: the read is fatal exactly when include_io is set, the cpu
and memory reads succeeded, and io_counters raised. -/
theorem snapshot_failures_caught_except_root_ioc :
    ∀ (ioFlag : Bool) (o : RootObs) (s : Sample) (cs : List ChildObs),
      ((∃ m, rootRead ioFlag o = ReadResult.fatal m) ↔
        ioFlag = true ∧ o.cpuMem ≠ none ∧ o.ioc = none) ∧
      (o.cpuMem = none → rootRead ioFlag o = ReadResult.stopped) ∧
      aggregate true ioFlag s ({ cpu := none, mem := none, ioc := none } :: cs)
        = aggregate true ioFlag s cs := by
  intro ioFlag o s cs
  obtain ⟨cm, oioc⟩ := o
  refine ⟨?_, ?_, ?_⟩
  · cases cm <;> cases oioc <;> cases ioFlag <;> simp [rootRead]
  · intro h
    simp only at h
    subst h
    rfl
  · simp only [aggregate, if_true, List.foldl_cons]
    rw [addChild_cpu_none ioFlag s _ rfl]

/-- Witness for C5 amended at a concrete input: a caught root cpu and memory
failure stops the loop cleanly. -/
theorem snapshot_failures_caught_except_root_ioc_witness :
    rootRead false { cpuMem := none, ioc := none } = ReadResult.stopped :=
  (snapshot_failures_caught_except_root_ioc false { cpuMem := none, ioc := none }
    sampleZero []).2.1 rfl

/-- C6, counterexample: with only a plot sink configured (no log file, so no
log stream at all), an unknown log format raises nothing — setup completes,
refuting the claim that the configuration error is raised regardless of which
sinks are configured. -/
theorem bogus_format_accepted_with_plot_only :
    headerSetup none (some "out.png") "bogus" = Except.ok () := rfl

/-- C6 amended: the unknown-format error is raised before any sample exactly
when a log stream is active and the format is neither plain nor csv; a log
stream is active whenever a log file is given, or when neither log nor plot
is given (stdout); with only a plot configured the format is never checked,
neither before nor during the run. -/
theorem format_checked_iff_log_active :
    ∀ (logfile plot : Option String) (fmt : String),
      (headerSetup logfile plot fmt = Except.ok () ↔
        effectiveLogfile logfile plot = none ∨ fmt = "plain" ∨ fmt = "csv") ∧
      (logfile = none → plot = none → effectiveLogfile logfile plot = some "<stdout>") ∧
      (∀ l, logfile = some l → effectiveLogfile logfile plot = some l) := by
  intro logfile plot fmt
  refine ⟨?_, ?_, ?_⟩
  · cases logfile <;> cases plot <;>
      by_cases h1 : fmt = "plain" <;> by_cases h2 : fmt = "csv" <;>
      simp [headerSetup, effectiveLogfile, h1, h2]
  · intro h1 h2
    subst h1
    subst h2
    rfl
  · intro l hl
    subst hl
    cases plot <;> rfl

/-- Witness for C6 amended at concrete inputs: with neither log nor plot the
stream is stdout, and a given log file is the stream. -/
theorem format_checked_iff_log_active_witness :
    effectiveLogfile none none = some "<stdout>" ∧
      effectiveLogfile (some "activity.log") none = some "activity.log" :=
  ⟨(format_checked_iff_log_active none none "plain").2.1 rfl rfl,
    (format_checked_iff_log_active (some "activity.log") none "plain").2.2 "activity.log" rfl⟩

/-- C7, counterexample: with a log sink, a plot sink and an interval all
configured, the iteration tail is log write, then pause, then plot append:
the plot-series append is not routed before the pause begins, refuting the
claim that every configured sink receives the sample before the pause. -/
theorem plot_append_after_pause :
    iterationTail true true true
        = [LoopEvent.logWrite, LoopEvent.pause, LoopEvent.plotAppend] ∧
      LoopEvent.plotAppend ∉
        (iterationTail true true true).takeWhile (fun e => e != LoopEvent.pause) := by
  decide

/-- C7 amended: the log write is routed before the pause, but the plot-series
append always comes after it, so an interrupt arriving during the pause
preserves the flushed log while that iteration's sample is lost to the plot
series. -/
theorem log_before_pause_plot_after :
    ∀ (logActive plotActive : Bool),
      (LoopEvent.plotAppend ∉
        (iterationTail logActive true plotActive).takeWhile (fun e => e != LoopEvent.pause)) ∧
      ((LoopEvent.logWrite ∈
          (iterationTail logActive true plotActive).takeWhile (fun e => e != LoopEvent.pause)) ↔
        logActive = true) ∧
      ((LoopEvent.plotAppend ∈ iterationTail logActive true plotActive) ↔
        plotActive = true) := by
  intro logActive plotActive
  cases logActive <;> cases plotActive <;> refine ⟨by decide, by decide, by decide⟩

theorem rootRead_sample_of_ok (ioFlag : Bool) (o : RootObs)
    (hcm : o.cpuMem ≠ none) (hio : ioFlag = true → o.ioc ≠ none) :
    ∃ s, rootRead ioFlag o = ReadResult.sample s := by
  obtain ⟨cm, hcmEq⟩ := Option.ne_none_iff_exists'.1 hcm
  cases ioFlag with
  | false =>
    exact ⟨rootSample false cm.1 cm.2
        { readCount := 0, writeCount := 0, readBytes := 0, writeBytes := 0 },
      by simp [rootRead, hcmEq]⟩
  | true =>
    obtain ⟨c, hcEq⟩ := Option.ne_none_iff_exists'.1 (hio rfl)
    exact ⟨rootSample true cm.1 cm.2 c, by simp [rootRead, hcmEq, hcEq]⟩

theorem runLoop_duration_aux (d : ℚ) (cf iof : Bool) (o : IterObs) (rest : List IterObs)
    (ho : o.status = some PStatus.running) (hd : d < o.elapsed) :
    ∀ pre : List IterObs,
      (∀ x ∈ pre, x.status = some PStatus.running ∧ x.root.cpuMem ≠ none ∧
        (iof = true → x.root.ioc ≠ none) ∧ x.elapsed ≤ d) →
      (runLoop (some d) cf iof (pre ++ o :: rest)).2 = StopReason.durationExceeded ∧
      (runLoop (some d) cf iof (pre ++ o :: rest)).1.map Prod.fst = pre.map IterObs.elapsed ∧
      ∀ t ∈ (runLoop (some d) cf iof (pre ++ o :: rest)).1.map Prod.fst, t ≤ d := by
  intro pre
  induction pre with
  | nil =>
    intro _
    have hover : overDuration (some d) o.elapsed = true := decide_eq_true hd
    simp [runLoop, ho, hover]
  | cons x pre ih =>
    intro hpre
    obtain ⟨hxs, hcm, hio, hle⟩ := hpre x (List.mem_cons_self x pre)
    have ihres := ih (fun y hy => hpre y (List.mem_cons_of_mem x hy))
    obtain ⟨s, hread⟩ := rootRead_sample_of_ok iof x.root hcm hio
    have hover : overDuration (some d) x.elapsed = false := decide_eq_false (not_lt.2 hle)
    have hstep : runLoop (some d) cf iof ((x :: pre) ++ o :: rest)
        = ((x.elapsed, aggregate cf iof s x.childObs)
            :: (runLoop (some d) cf iof (pre ++ o :: rest)).1,
          (runLoop (some d) cf iof (pre ++ o :: rest)).2) := by
      simp [runLoop, hxs, hover, hread]
    refine ⟨?_, ?_, ?_⟩
    · rw [hstep]
      exact ihres.1
    · rw [hstep]
      simp only [List.map_cons, ihres.2.1]
    · rw [hstep]
      intro t ht
      simp only [List.map_cons, List.mem_cons] at ht
      rcases ht with h | h
      · exact h ▸ hle
      · exact ihres.2.2 t h

/-- C8: with a configured duration and a root process that stays running and
readable, the loop stops with reason durationExceeded at the first iteration
whose elapsed time strictly exceeds the duration: samples were emitted exactly
for the earlier iterations, the stopping iteration performs no detailed read
and emits nothing, and every emitted sample's elapsed time is at most the
duration, so no detailed root read ever happens past the threshold. -/
theorem duration_stop_at_first_exceed :
    ∀ (d : ℚ) (cf iof : Bool) (pre : List IterObs) (o : IterObs) (rest : List IterObs),
      (∀ x ∈ pre, x.status = some PStatus.running ∧ x.root.cpuMem ≠ none ∧
        (iof = true → x.root.ioc ≠ none) ∧ x.elapsed ≤ d) →
      o.status = some PStatus.running →
      d < o.elapsed →
      (runLoop (some d) cf iof (pre ++ o :: rest)).2 = StopReason.durationExceeded ∧
      (runLoop (some d) cf iof (pre ++ o :: rest)).1.map Prod.fst = pre.map IterObs.elapsed ∧
      ∀ t ∈ (runLoop (some d) cf iof (pre ++ o :: rest)).1.map Prod.fst, t ≤ d :=
  fun d cf iof pre o rest hpre ho hd => runLoop_duration_aux d cf iof o rest ho hd pre hpre

/-- Witness for C8 at a concrete run: duration 1, a healthy iteration at
elapsed time one half, then one at elapsed time 2 that stops the loop. -/
theorem duration_stop_at_first_exceed_witness :
    (runLoop (some 1) true true ([obsHealthy (1 / 2)] ++ obsHealthy 2 :: [])).2
        = StopReason.durationExceeded ∧
      (runLoop (some 1) true true ([obsHealthy (1 / 2)] ++ obsHealthy 2 :: [])).1.map Prod.fst
        = [obsHealthy (1 / 2)].map IterObs.elapsed ∧
      ∀ t ∈ (runLoop (some 1) true true
          ([obsHealthy (1 / 2)] ++ obsHealthy 2 :: [])).1.map Prod.fst, t ≤ 1 :=
  duration_stop_at_first_exceed 1 true true [obsHealthy (1 / 2)] (obsHealthy 2) []
    (by
      intro x hx
      simp only [List.mem_singleton] at hx
      subst hx
      exact ⟨rfl, Option.some_ne_none _, fun _ => Option.some_ne_none _, by norm_num [obsHealthy]⟩)
    rfl (by norm_num [obsHealthy])

/-- C9, counterexample: a run that spawned its target and whose monitor call
raises the unknown-log-format configuration error never reaches the kill of
line 130, so the spawned subprocess is left orphaned, refuting termination on
every exit path. -/
theorem config_error_skips_kill :
    MainEvent.kill ∉ mainEvents true (headerSetup (some "activity.log") none "bogus") := by
  decide

/-- C9 amended: the spawned subprocess is killed exactly when the target was
spawned and monitor returned normally; on any exit through an exception the
kill is skipped and the subprocess is left running. -/
theorem kill_iff_monitor_returns :
    ∀ (spawned : Bool) (outcome : Except String Unit),
      MainEvent.kill ∈ mainEvents spawned outcome ↔
        spawned = true ∧ outcome = Except.ok () := by
  intro spawned outcome
  cases outcome with
  | ok u =>
    cases u
    cases spawned <;> simp [mainEvents]
  | error m =>
    cases spawned <;> simp [mainEvents]

/-- C10: the program attaches to an existing process exactly when Python int()
accepts the positional argument: a parse yielding n makes the target attach to
pid n (the string is never spawned as a command), and a failed parse makes the
target the spawned shell command, whose new pid is what monitor receives. -/
theorem attach_iff_int_parseable :
    ∀ (arg : String) (spawnedPid : Nat),
      ((∃ n, resolveTarget arg spawnedPid = Target.attach n) ↔
        (pyIntParse arg).isSome = true) ∧
      (∀ n, pyIntParse arg = some n →
        resolveTarget arg spawnedPid = Target.attach n ∧
        monitoredPid (resolveTarget arg spawnedPid) = n) ∧
      (pyIntParse arg = none →
        resolveTarget arg spawnedPid = Target.spawn arg spawnedPid ∧
        monitoredPid (resolveTarget arg spawnedPid) = (spawnedPid : Int)) := by
  intro arg p
  refine ⟨?_, ?_, ?_⟩
  · cases h : pyIntParse arg <;> simp [resolveTarget, h]
  · intro n hn
    simp [resolveTarget, hn, monitoredPid]
  · intro hn
    simp [resolveTarget, hn, monitoredPid]

/-- Witness for C10 at concrete arguments: an ASCII integer with surrounding
whitespace, an Arabic-Indic integer, a fullwidth integer with a leading
no-break space — Python int() accepts all three — each attach to pid 42,
while a command string is spawned and its new pid monitored. -/
theorem attach_iff_int_parseable_witness :
    (resolveTarget " 42 " 777 = Target.attach 42 ∧
      monitoredPid (resolveTarget " 42 " 777) = 42) ∧
      (resolveTarget "٤٢" 777 = Target.attach 42 ∧
        monitoredPid (resolveTarget "٤٢" 777) = 42) ∧
      (resolveTarget "\xa0４２" 777 = Target.attach 42 ∧
        monitoredPid (resolveTarget "\xa0４２" 777) = 42) ∧
      (resolveTarget "sleep 5" 777 = Target.spawn "sleep 5" 777 ∧
        monitoredPid (resolveTarget "sleep 5" 777) = (777 : Int)) :=
  ⟨(attach_iff_int_parseable " 42 " 777).2.1 42 (by decide),
    (attach_iff_int_parseable "٤٢" 777).2.1 42 (by decide),
    (attach_iff_int_parseable "\xa0４２" 777).2.1 42 (by decide),
    (attach_iff_int_parseable "sleep 5" 777).2.2 (by decide)⟩

end Psrecord
